import Mathlib

/-!
Verification development for the `QuantumEnvironment` reinforcement-learning
environment (`src/quantumenvironment.py`): target resolution
(`_define_target`, `_calculate_chi_target_state`), the direct-fidelity-estimation
reward path (`perform_action`), benchmarking (`_store_benchmarks`), history
bookkeeping (`clear_history`) and serialization (`to_json`).

Modelling conventions (shallow embedding):
- Python dicts holding the target description become structures with `Option`
  fields (`none` = key absent); an `extra` component stands for any further,
  untouched keys.  In-place dict mutation is rendered as state passing: the
  function returns the updated record.
- Exceptions become `Except Err`; where partial mutations before a raise are
  observable, functions return `(Except Err _) × Env` with the state at the
  raise point.
- External collaborators (qiskit circuits, density matrices, operators, the
  Estimator, numerical fidelities, the Pauli-trace computation) are modelled
  freely: each external constructor is a constructor of an inductive type, and
  each external numeric function is a field of the `Extern` parameter record.
  Machine floats are modelled by `ℚ`; `np.round(x, 5)` uses round-half-to-even
  on `x·10^5`, matching numpy.
-/

deriving instance DecidableEq for Except

/-- Insertion step for the sort underlying the model of `np.unique`. -/
def insertSorted (a : Nat) : List Nat → List Nat
  | [] => [a]
  | b :: t => if a ≤ b then a :: b :: t else b :: insertSorted a t

/-- Insertion sort on naturals (ascending), used to model `np.unique`. -/
def sortNat (l : List Nat) : List Nat := l.foldr insertSorted []

/-- Model of `np.unique` (without counts): the sorted list of distinct values.
`perform_action` ignores the counts (`pauli_shots` is unused downstream). -/
def npUnique (l : List Nat) : List Nat := (sortNat l).dedup

/-- Round a rational to the nearest integer, ties to even — the rounding mode
of `np.round`. -/
def np_round_int (q : ℚ) : ℤ :=
  let n : ℤ := ⌊q⌋
  let r : ℚ := q - n
  if r < 1/2 then n
  else if 1/2 < r then n + 1
  else if n % 2 = 0 then n else n + 1

/-- `np.round(x, 5)`: round to 5 decimal digits, ties to even. -/
def np_round5 (q : ℚ) : ℚ := (np_round_int (q * 100000) : ℚ) / 100000

/-- `np.mean` of a rational list (sum divided by length). -/
def listMean (l : List ℚ) : ℚ := l.sum / (l.length : ℚ)

/-- Probability mass of a `tensorflow_probability` `Categorical(probs=probs)`
at index `p`: TFP normalizes the unnormalized `probs` vector by its sum. -/
def catProb (probs : List ℚ) (p : Nat) : ℚ := probs.getD p 0 / probs.sum

/-- `itertools.product(range(4), repeat=k)` in iteration order (first
coordinate varies slowest). -/
def prodRange4 : Nat → List (List Nat)
  | 0 => [[]]
  | k + 1 => (List.range 4).flatMap (fun a => (prodRange4 k).map (fun s => a :: s))

/-- A `qiskit.circuit.Gate`: only its qubit count is consulted by the embedded
code; `payload` distinguishes gates. -/
structure Gate where
  num_qubits : Nat
  payload : Nat
deriving DecidableEq

/-- Free model of `qiskit.QuantumCircuit` values as built by the embedded code:
each external circuit-producing operation is a constructor.
`given` stands for a caller-supplied circuit, `empty n` for
`QuantumCircuit(register_of_size_n)`, `appendInstr` for
`qc.append(c.to_instruction(), register)`, `appendGate` for
`qc.append(CircuitInstruction(gate, register))`, `pauliPrep s` for
`PauliPreparationBasis().circuit(s).decompose()`, `parametrized` for the
user-config `parametrized_circuit_func` writing into the circuit, and
`bound` for `circ.bind_parameters(angle_set)`. -/
inductive Circuit where
  | given (payload : Nat)
  | empty (reg : Nat)
  | appendInstr (base : Circuit) (instr : Circuit)
  | appendGate (base : Circuit) (g : Gate)
  | pauliPrep (s : List Nat)
  | parametrized (base : Circuit)
  | bound (base : Circuit) (params : List ℚ)
deriving DecidableEq

/-- Free model of `qiskit.quantum_info.Operator` values used by benchmarking:
`ofCircuit` is `Operator(qc)`, `ofGate` is `Operator(gate)` (or the gate passed
directly, as the pulse path does), `ofPulse` is the unitary solved from a
circuit's pulse schedule. -/
inductive Op where
  | ofCircuit (c : Circuit)
  | ofGate (g : Gate)
  | ofPulse (c : Circuit)
deriving DecidableEq

/-- Free model of `DensityMatrix` values: `ofCircuit c` is
`DensityMatrix(c)`, `given` a caller-supplied density matrix (with its qubit
count), `meanSV l` the batch-averaged state-vector density matrix of the
circuit-level benchmark, `meanPulse l` its pulse-level counterpart. -/
inductive DMv where
  | ofCircuit (c : Circuit)
  | given (n_qubits : Nat) (payload : Nat)
  | meanSV (l : List Circuit)
  | meanPulse (l : List Op)
deriving DecidableEq

/-- Errors raised by the embedded code, one constructor per raise site. -/
inductive Err where
  | assertAbstraction
  | noTargetKey
  | bothTargetsKey
  | targetTypeUnidentified
  | assertNoDm
  | assertGateRegisterMismatch
  | typeErrorLenNone
  | keyErrorInputCircuit
  | keyErrorMissing (field : String)
  | valueErrorRandint
  | emptyPauliList
  | estimatorRaised
  | contractViolation
  | attributeError
  | jsonTypeError
deriving DecidableEq

/-- Classification of each raise site under the spec's error taxonomy (§7).
The two `KeyError`s of `_define_target`'s mutual-exclusion checks are the
spec's `ConfigError`; the register/gate arity assert is its `DimensionError`;
the batch-shape assert of `perform_action` is its `ContractViolation`;
`SparsePauliOp.from_list([])` raises qiskit's own `QiskitError`. -/
def errClass : Err → String
  | .assertAbstraction => "AssertionError"
  | .noTargetKey => "ConfigError"
  | .bothTargetsKey => "ConfigError"
  | .targetTypeUnidentified => "KeyError"
  | .assertNoDm => "AssertionError"
  | .assertGateRegisterMismatch => "DimensionError"
  | .typeErrorLenNone => "TypeError"
  | .keyErrorInputCircuit => "KeyError"
  | .keyErrorMissing _ => "KeyError"
  | .valueErrorRandint => "ValueError"
  | .emptyPauliList => "QiskitError"
  | .estimatorRaised => "EstimatorError"
  | .contractViolation => "ContractViolation"
  | .attributeError => "AttributeError"
  | .jsonTypeError => "TypeError"

/-- The `register` entry of a raw target: a list of qubit indices or a
`QuantumRegister` (of which only the size is consulted). -/
inductive RegisterField where
  | list (l : List Nat)
  | qreg (n : Nat)
deriving DecidableEq

/-- The `input_state['target_state']` sub-dict built at
`_define_target` line 259: keys `dm`, `circuit`, `target_type`, and `Chi`
once `_calculate_chi_target_state` has run. -/
structure SubTarget where
  dm : DMv
  circuit : Circuit
  target_type : String
  Chi : Option (List ℚ)
deriving DecidableEq

/-- One entry of `target['input_states']`; `extra` stands for unrecognized
keys, preserved by the in-place mutation. -/
structure InputState where
  circuit : Option Circuit
  dm : Option DMv
  target_state : Option SubTarget
  extra : Nat
deriving DecidableEq

/-- The raw target description dict.  `none` = key absent; `extra` stands for
any additional keys, untouched by the resolver. -/
structure TDict where
  register : Option RegisterField
  gate : Option Gate
  circuit : Option Circuit
  dm : Option DMv
  input_states : Option (List InputState)
  target_type : Option String
  Chi : Option (List ℚ)
  extra : Nat
deriving DecidableEq

/-- Modelled from the spec: `QiskitConfig` (`qconfig.py`, not under `src/`)
bundles the backend, estimator options and the `parametrized_circuit`
callable.  Only its identity and (non-)JSON-serializability matter here. -/
structure QiskitConfig where
  payload : Nat
deriving DecidableEq

/-- External numeric collaborators, quantified over in every theorem:
the real part of `Tr(dm · Pauli_k)` (numpy/qiskit linear algebra), circuit
widths, the three fidelity metrics of `qiskit.quantum_info`, and whether a
`QiskitConfig` happens to be JSON-serializable. -/
structure Extern where
  pauliTraceRe : DMv → Nat → ℚ
  width : Circuit → Nat
  state_fidelity : DMv → DMv → ℚ
  process_fidelity : Op → Op → ℚ
  average_gate_fidelity : Op → Op → ℚ
  configSerializable : QiskitConfig → Bool

/-- `DensityMatrix.num_qubits`.  The `meanSV`/`meanPulse` forms are never
queried for their qubit count by the embedded code. -/
def DMv.numQubits (ext : Extern) : DMv → Nat
  | .ofCircuit c => ext.width c
  | .given n _ => n
  | .meanSV _ => 0
  | .meanPulse _ => 0

/-- A `SparsePauliOp` observable: list of (Pauli-basis index, coefficient)
terms.  Pauli labels are modelled by their basis index (`to_label` is
injective on `pauli_basis(n)`). -/
structure Observable where
  terms : List (Nat × ℚ)
deriving DecidableEq

/-- `SparsePauliOp.from_list`: qiskit raises `QiskitError` on an empty list. -/
def SparsePauliOp_from_list (l : List (Nat × ℚ)) : Except Err Observable :=
  if l = [] then .error .emptyPauliList else .ok ⟨l⟩

/-- The request handed to the external Estimator capability by
`perform_action` (circuits, observables, parameter bindings, shots). -/
structure Request where
  circuits : List Circuit
  observables : List Observable
  parameter_values : List (List ℚ)
  shots : Nat
deriving DecidableEq

/-- The Chi vector computed by `_calculate_chi_target_state`:
`chi[k] = Re(Tr(dm · Pauli_k))` for `k ∈ range(d²)`, `d = 2^n`. -/
def chiVec (ext : Extern) (dm : DMv) (n_qubits : Nat) : List ℚ :=
  (List.range ((2 ^ n_qubits) ^ 2)).map (fun k => ext.pauliTraceRe dm k)

/-- `_calculate_chi_target_state` (lines 171-186): asserts the `dm` key is
present and computes the `Chi` entry.  The Python function writes
`target_state["Chi"]` in place and returns the dict; here the Chi value is
returned and written into the record at each call site. -/
def _calculate_chi_target_state (ext : Extern) (dm : Option DMv) (n_qubits : Nat) :
    Except Err (List ℚ) :=
  match dm with
  | none => .error .assertNoDm
  | some ρ => .ok (chiVec ext ρ n_qubits)

/-- The `for i, input_state in enumerate(target["input_states"])` loop of
`_define_target` (lines 246-262): each entry gets its `dm`, and a
`target_state` sub-dict (output of the ideal gate on that input) with its own
Chi vector.  The Python loop mutates the entries in place; on success the
updated list is written back. -/
def resolveInputStates (ext : Extern) (g : Gate) (q_register n_qubits : Nat) :
    List InputState → Except Err (List InputState)
  | [] => .ok []
  | is :: rest =>
    match is.circuit with
    | none => .error .keyErrorInputCircuit
    | some input_circuit =>
      let is1 := { is with dm := some (DMv.ofCircuit input_circuit) }
      let state_target_circuit :=
        Circuit.appendGate (Circuit.appendInstr (Circuit.empty q_register) input_circuit) g
      match _calculate_chi_target_state ext (some (DMv.ofCircuit state_target_circuit)) n_qubits with
      | .error e => .error e
      | .ok chi =>
        let ts : SubTarget :=
          { dm := DMv.ofCircuit state_target_circuit,
            circuit := state_target_circuit,
            target_type := "state",
            Chi := some chi }
        match resolveInputStates ext g q_register n_qubits rest with
        | .error e => .error e
        | .ok rest' => .ok ({ is1 with target_state := some ts } :: rest')

/-- The tail of `_define_target`'s gate path once the `input_states` list is
in place (explicit or defaulted): run the resolution loop and write the
updated list back into the target dict. -/
def resolve_gate_target (ext : Extern) (gate : Gate) (q_register n_qubits : Nat)
    (layout : List Nat) (t2 : TDict) :
    Except Err (TDict × String × Nat × Nat × List Nat) :=
  match resolveInputStates ext gate q_register n_qubits (t2.input_states.getD []) with
  | .error e => .error e
  | .ok states =>
    .ok ({ t2 with input_states := some states }, "gate", q_register, n_qubits, layout)

/-- One default input state as generated at line 239:
`{"circuit": PauliPreparationBasis().circuit(s).decompose()}`. -/
def defaultInputState (s : List Nat) : InputState :=
  { circuit := some (Circuit.pauliPrep s), dm := none, target_state := none, extra := 0 }

/-- `_define_target` (lines 189-265).  Returns
`(target, target_type, q_register_size, n_qubits, layout)`.
A `QuantumRegister` is modelled by its size, a `Layout` by the list of
physical indices (`generate_trivial_layout` = `range n`).  The Python
function mutates the caller's dict in place; the returned `TDict` is that
mutated dict.  Wrongly-typed register values (the assert at lines 190-192)
are outside the model: `RegisterField` only admits the two accepted shapes. -/
def _define_target (ext : Extern) (t : TDict) :
    Except Err (TDict × String × Nat × Nat × List Nat) :=
  let q_register? : Option Nat :=
    match t.register with
    | some (.list l) => some l.length
    | some (.qreg n) => some n
    | none => none
  let layout? : Option (List Nat) :=
    match t.register with
    | some (.list l) => some l
    | _ => none
  if t.gate.isNone && t.circuit.isNone && t.dm.isNone then .error .noTargetKey
  else if t.gate.isSome && (t.circuit.isSome || t.dm.isSome) then .error .bothTargetsKey
  else if t.circuit.isSome || t.dm.isSome then
    -- state-preparation path (lines 206-224)
    let t1 := { t with target_type := some "state" }
    let t2 :=
      match t1.circuit with
      | some c => { t1 with dm := some (DMv.ofCircuit c) }
      | none => t1
    match t2.dm with
    | none => .error .assertNoDm
    | some dm =>
      let n_qubits := dm.numQubits ext
      let q_register := q_register?.getD n_qubits
      let layout := layout?.getD (List.range q_register)
      match _calculate_chi_target_state ext (some dm) n_qubits with
      | .error e => .error e
      | .ok chi => .ok ({ t2 with Chi := some chi }, "state", q_register, n_qubits, layout)
  else
    -- gate-calibration path (lines 226-263)
    match t.gate with
    | none => .error .targetTypeUnidentified
    | some gate =>
      let t1 := { t with target_type := some "gate" }
      let n_qubits := gate.num_qubits
      let q_register := q_register?.getD n_qubits
      let layout := layout?.getD (List.range q_register)
      if gate.num_qubits ≠ q_register then .error .assertGateRegisterMismatch
      else
        -- default input states (lines 238-240): note the source computes
        -- `len(tgt_register)` on the *raw* register entry, which is `None`
        -- when the key is absent — a TypeError at runtime.
        match t1.input_states with
        | some _ => resolve_gate_target ext gate q_register n_qubits layout t1
        | none =>
          match t.register with
          | none => .error .typeErrorLenNone
          | some (.list l) =>
            resolve_gate_target ext gate q_register n_qubits layout
              { t1 with input_states := some ((prodRange4 l.length).map defaultInputState) }
          | some (.qreg m) =>
            resolve_gate_target ext gate q_register n_qubits layout
              { t1 with input_states := some ((prodRange4 m).map defaultInputState) }

/-- The environment state: resolved target, configuration scalars, and the
history buffers of `QuantumEnvironment.__init__` (lines 368-379).  History
attributes that the constructor only creates for one target type are
`Option`-valued: `none` models the attribute not existing (appending to it is
an `AttributeError`). -/
structure Env where
  config : QiskitConfig
  abstraction_level : String
  target : TDict
  target_type : String
  tgt_register : Nat
  n_qubits : Nat
  layout : List Nat
  d : Nat
  c_factor : ℚ
  sampling_Pauli_space : Nat
  n_shots : Nat
  step_tracker : Nat
  action_history : List (List (List ℚ))
  density_matrix_history : List DMv
  reward_history : List (List ℚ)
  qc_history : List (List Circuit)
  process_fidelity_history : Option (List ℚ)
  avg_fidelity_history : Option (List ℚ)
  built_unitaries : Option (List (List Op))
  state_fidelity_history : Option (List ℚ)
deriving DecidableEq

/-- `QuantumEnvironment.__init__` (Qiskit path; backend/estimator wiring is
external and omitted): validates the abstraction level, resolves the target,
sets `d = 2^n`, and creates the history buffers — the gate-branch buffers only
for gate targets, `state_fidelity_history` only for state targets, and
`action/density_matrix/reward/qc` histories unconditionally. -/
def QuantumEnvironment_init (ext : Extern) (target : TDict) (abstraction_level : String)
    (config : QiskitConfig) (sampling_Pauli_space : Nat) (n_shots : Nat) (c_factor : ℚ) :
    Except Err Env :=
  if abstraction_level ≠ "circuit" ∧ abstraction_level ≠ "pulse" then .error .assertAbstraction
  else
    match _define_target ext target with
    | .error e => .error e
    | .ok (t, target_type, tgt_register, n_qubits, layout) =>
      .ok { config := config,
            abstraction_level := abstraction_level,
            target := t,
            target_type := target_type,
            tgt_register := tgt_register,
            n_qubits := n_qubits,
            layout := layout,
            d := 2 ^ n_qubits,
            c_factor := c_factor,
            sampling_Pauli_space := sampling_Pauli_space,
            n_shots := n_shots,
            step_tracker := 0,
            action_history := [],
            density_matrix_history := [],
            reward_history := [],
            qc_history := [],
            process_fidelity_history := if target_type = "gate" then some [] else none,
            avg_fidelity_history := if target_type = "gate" then some [] else none,
            built_unitaries := if target_type = "gate" then some [] else none,
            state_fidelity_history := if target_type = "gate" then none else some [] }

/-- The DFE reward weights of `perform_action` (lines 408-409):
`np.round([c_factor * Chi[p] / (d * distribution.prob(p)) for p in pauli_index], 5)`
with `distribution = Categorical(probs=Chi ** 2)`. -/
def reward_factor (c_factor : ℚ) (d : Nat) (Chi : List ℚ) (pauli_index : List Nat) : List ℚ :=
  pauli_index.map (fun p =>
    np_round5 (c_factor * Chi.getD p 0 / ((d : ℚ) * catProb (Chi.map (fun x => x ^ 2)) p)))

/-- The pulse-level fidelity appends of `_store_benchmarks` (lines 478-486),
before the unconditional `built_unitaries` append of line 487: state targets
append a state fidelity against the mean evolved state, gate targets append
process and average gate fidelities. -/
def pulse_fidelity_appends (ext : Extern) (env : Env) (unitaries : List Op) :
    Except Err Unit × Env :=
  if env.target_type = "state" then
    let density_matrix := DMv.meanPulse unitaries
    match env.target.dm with
    | none => (.error (.keyErrorMissing "dm"), env)
    | some tdm =>
      match env.state_fidelity_history with
      | none => (.error .attributeError, env)
      | some l =>
        let sf := some (l ++ [ext.state_fidelity tdm density_matrix])
        (.ok (), { env with state_fidelity_history := sf })
  else
    match env.target.gate with
    | none => (.error (.keyErrorMissing "gate"), env)
    | some g =>
      match env.process_fidelity_history with
      | none => (.error .attributeError, env)
      | some pl =>
        let prc := listMean (unitaries.map (fun u => ext.process_fidelity u (Op.ofGate g)))
        let e2 := { env with process_fidelity_history := some (pl ++ [prc]) }
        match e2.avg_fidelity_history with
        | none => (.error .attributeError, e2)
        | some al =>
          let avg := listMean (unitaries.map (fun u => ext.average_gate_fidelity u (Op.ofGate g)))
          (.ok (), { e2 with avg_fidelity_history := some (al ++ [avg]) })

/-- Line 487 of `_store_benchmarks`: `self.built_unitaries.append(unitaries)`,
run for both target types at pulse level once the fidelity appends succeeded
(exceptions from the fidelity block propagate past it).  For a state-target
instance the attribute does not exist (`__init__` never creates it), so the
append raises `AttributeError`. -/
def append_built_unitaries (unitaries : List Op) (r : Except Err Unit × Env) :
    Except Err Unit × Env :=
  match r with
  | (.error err, e) => (.error err, e)
  | (.ok _, e) =>
    match e.built_unitaries with
    | none => (.error .attributeError, e)
    | some bu => (.ok (), { e with built_unitaries := some (bu ++ [unitaries]) })

/-- `_store_benchmarks` (lines 439-487).  Returns the step outcome together
with the environment state at exit — mutations made before a raise persist,
matching Python exception semantics.  Circuit level: the batch-averaged
density matrix is appended to `density_matrix_history` for *every* target
type, then the per-target-type fidelity lists are appended.  Pulse level:
fidelity appends branch on target type, after which `built_unitaries` is
appended for both branches (line 487). -/
def _store_benchmarks (ext : Extern) (env : Env) (qc_list : List Circuit) :
    Except Err Unit × Env :=
  if env.abstraction_level = "circuit" then
    let density_matrix := DMv.meanSV qc_list
    let e1 := { env with density_matrix_history := env.density_matrix_history ++ [density_matrix] }
    if e1.target_type = "state" then
      match e1.target.dm with
      | none => (.error (.keyErrorMissing "dm"), e1)
      | some tdm =>
        match e1.state_fidelity_history with
        | none => (.error .attributeError, e1)
        | some l =>
          let sf := some (l ++ [ext.state_fidelity tdm density_matrix])
          (.ok (), { e1 with state_fidelity_history := sf })
    else
      match e1.target.gate with
      | none => (.error (.keyErrorMissing "gate"), e1)
      | some g =>
        let q_process_list := qc_list.map Op.ofCircuit
        let prc := listMean (q_process_list.map (fun q => ext.process_fidelity q (Op.ofGate g)))
        let avg := listMean (q_process_list.map (fun q => ext.average_gate_fidelity q (Op.ofGate g)))
        match e1.built_unitaries with
        | none => (.error .attributeError, e1)
        | some bu =>
          let e2 := { e1 with built_unitaries := some (bu ++ [q_process_list]) }
          match e2.process_fidelity_history with
          | none => (.error .attributeError, e2)
          | some pl =>
            let e3 := { e2 with process_fidelity_history := some (pl ++ [prc]) }
            match e3.avg_fidelity_history with
            | none => (.error .attributeError, e3)
            | some al => (.ok (), { e3 with avg_fidelity_history := some (al ++ [avg]) })
  else if env.abstraction_level = "pulse" then
    let unitaries := qc_list.map Op.ofPulse
    append_built_unitaries unitaries (pulse_fidelity_appends ext env unitaries)
  else (.ok (), env)

/-- Everything `perform_action` does before invoking the external Estimator
(lines 389-431 up to `estimator.run`): appends the action batch to history,
selects the current target state (random input state for gate targets,
modelled by `rand_index`, the value of `np.random.randint(len(input_states))`,
always below the list length — `get? = none` also covers the `ValueError` that
`randint(0)` raises on an empty list), runs the DFE sampling computation on
the drawn indices `k_samples` (the `sampling_Pauli_space` draws of
`distribution.sample`), builds the weighted observable, appends the bound
circuit batch to `qc_history`, optionally stores benchmarks, and assembles
the Estimator request.  Returns the request and the state at exit. -/
def prepare (ext : Extern) (env : Env) (actions : List (List ℚ)) (do_benchmark : Bool)
    (rand_index : Nat) (k_samples : List Nat) : Except Err Request × Env :=
  let qc0 := Circuit.empty env.tgt_register
  let parametrized_circ0 := Circuit.empty env.tgt_register
  let angles := actions
  let batch_size := actions.length
  let e0 := { env with action_history := env.action_history ++ [angles] }
  let sel : Except Err (List ℚ × Circuit) :=
    if e0.target_type = "gate" then
      match e0.target.input_states with
      | none => .error (.keyErrorMissing "input_states")
      | some states =>
        match states.get? rand_index with
        | none => .error .valueErrorRandint
        | some input_state =>
          match input_state.target_state with
          | none => .error (.keyErrorMissing "target_state")
          | some ts =>
            match input_state.circuit with
            | none => .error (.keyErrorMissing "circuit")
            | some ic =>
              match ts.Chi with
              | none => .error (.keyErrorMissing "Chi")
              | some chi => .ok (chi, Circuit.appendInstr qc0 ic)
    else
      match e0.target.Chi with
      | none => .error (.keyErrorMissing "Chi")
      | some chi => .ok (chi, qc0)
  match sel with
  | .error err => (.error err, e0)
  | .ok (Chi, qc1) =>
    let pauli_index := npUnique k_samples
    let reward_fac := reward_factor e0.c_factor e0.d Chi pauli_index
    match SparsePauliOp_from_list (pauli_index.zip reward_fac) with
    | .error err => (.error err, e0)
    | .ok observables =>
      let parametrized_circ := Circuit.parametrized parametrized_circ0
      let qc_list := angles.map (fun angle_set => Circuit.bound parametrized_circ angle_set)
      let e1 := { e0 with qc_history := e0.qc_history ++ [qc_list] }
      let bench : Except Err Unit × Env :=
        if do_benchmark then _store_benchmarks ext e1 qc_list else (.ok (), e1)
      match bench with
      | (.error err, e2) => (.error err, e2)
      | (.ok _, e2) =>
        let qc2 := Circuit.parametrized qc1
        (.ok { circuits := List.replicate batch_size qc2,
               observables := List.replicate batch_size observables,
               parameter_values := angles,
               shots := e2.sampling_Pauli_space * e2.n_shots }, e2)

/-- `perform_action` (lines 381-437).  The external Estimator is modelled by
two parameters: `runOk` (whether `estimator.run` itself raises) and
`resultOutcome` (what `job.result().values` yields, or that it raises).
After a successful `run`, the step counter is incremented (line 433), the
reward vector is appended to history (line 435) *before* the batch-size
assert (line 436), and only then returned.  The returned `Env` is the state
at exit, also on failure. -/
def perform_action (ext : Extern) (env : Env) (actions : List (List ℚ)) (do_benchmark : Bool)
    (rand_index : Nat) (k_samples : List Nat) (runOk : Bool)
    (resultOutcome : Except Unit (List ℚ)) : Except Err (List ℚ) × Env :=
  match prepare ext env actions do_benchmark rand_index k_samples with
  | (.error err, e) => (.error err, e)
  | (.ok _req, e) =>
    if runOk then
      let e1 := { e with step_tracker := e.step_tracker + 1 }
      match resultOutcome with
      | .error _ => (.error .estimatorRaised, e1)
      | .ok reward_table =>
        let e2 := { e1 with reward_history := e1.reward_history ++ [reward_table] }
        if reward_table.length = actions.length then (.ok reward_table, e2)
        else (.error .contractViolation, e2)
    else (.error .estimatorRaised, e)

/-- `clear_history` (lines 527-538): empties `qc/action/reward` histories;
for gate targets additionally the gate-branch buffers, otherwise
`state_fidelity_history` and `density_matrix_history`.  The branch buffers
exist for the matching target type (created by `__init__`), so clearing maps
`some l` to `some []`. -/
def clear_history (env : Env) : Env :=
  let e := { env with qc_history := [], action_history := [], reward_history := [] }
  if e.target_type = "gate" then
    { e with avg_fidelity_history := e.avg_fidelity_history.map (fun _ => []),
             process_fidelity_history := e.process_fidelity_history.map (fun _ => []),
             built_unitaries := e.built_unitaries.map (fun _ => []) }
  else
    { e with state_fidelity_history := e.state_fidelity_history.map (fun _ => []),
             density_matrix_history := [] }

/-- JSON-serializability of one `input_states` entry: each present value is a
`QuantumCircuit`, `DensityMatrix` or nested dict holding them — none of which
`json.dumps` accepts. -/
def inputStateSerializable (is : InputState) : Bool :=
  is.circuit.isNone && is.dm.isNone && is.target_state.isNone

/-- JSON-serializability of the target dict: `Gate`, `QuantumCircuit`,
`DensityMatrix`, `QuantumRegister` objects and the `np.ndarray` Chi vector
all make `json.dumps` raise `TypeError`; plain entries (index lists, the
`target_type` string) are fine. -/
def tdictSerializable (t : TDict) : Bool :=
  t.gate.isNone && t.circuit.isNone && t.dm.isNone && t.Chi.isNone &&
  (match t.register with | some (.qreg _) => false | _ => true) &&
  (match t.input_states with | none => true | some l => l.all inputStateSerializable)

/-- `to_json` (lines 595-608): `json.dumps` over a dict holding the
`QiskitConfig` object, the resolved target dict, and the reward/action/
fidelity histories (numpy arrays and `np.float64` values).  `json.dumps`
raises `TypeError` at the first non-serializable value; the model checks
serializability of exactly those dict entries. -/
def to_json (ext : Extern) (env : Env) : Except Err String :=
  if ext.configSerializable env.config
     && tdictSerializable env.target
     && env.reward_history.isEmpty && env.action_history.isEmpty
     && (if env.target_type = "gate" then (env.avg_fidelity_history.getD []).isEmpty
         else (env.state_fidelity_history.getD []).isEmpty)
  then .ok "snapshot" else .error .jsonTypeError

/-- A concrete instantiation of the external collaborators, used for the
closed (counter)example evaluations: all numeric externals return `0`,
every circuit has width `1`, and the config is not JSON-serializable. -/
def ext0 : Extern :=
  { pauliTraceRe := fun _ _ => 0,
    width := fun _ => 1,
    state_fidelity := fun _ _ => 0,
    process_fidelity := fun _ _ => 0,
    average_gate_fidelity := fun _ _ => 0,
    configSerializable := fun _ => false }

/-- A 1-qubit state target given directly as a density matrix, no register. -/
def stateT : TDict :=
  { register := none, gate := none, circuit := none, dm := some (DMv.given 1 7),
    input_states := none, target_type := none, Chi := none, extra := 3 }

/-- A 1-qubit gate target with no register and no input states — the input
that trips the default-input-state generation. -/
def gateNoRegT : TDict :=
  { register := none, gate := some ⟨1, 5⟩, circuit := none, dm := none,
    input_states := none, target_type := none, Chi := none, extra := 0 }

/-- A 1-qubit gate target with register `[0]`. -/
def gateT : TDict :=
  { register := some (.list [0]), gate := some ⟨1, 5⟩, circuit := none, dm := none,
    input_states := none, target_type := none, Chi := none, extra := 0 }

/-- Fallback environment (never reached by the concrete constructions below,
which all resolve successfully). -/
def envFallback : Env :=
  { config := ⟨0⟩, abstraction_level := "circuit", target := stateT,
    target_type := "state", tgt_register := 1, n_qubits := 1, layout := [0],
    d := 2, c_factor := 1/2, sampling_Pauli_space := 10, n_shots := 1,
    step_tracker := 0, action_history := [], density_matrix_history := [],
    reward_history := [], qc_history := [], process_fidelity_history := none,
    avg_fidelity_history := none, built_unitaries := none,
    state_fidelity_history := some [] }

/-- The state-target environment built by the constructor on `stateT`. -/
def envS : Env :=
  match QuantumEnvironment_init ext0 stateT "circuit" ⟨0⟩ 10 1 (1/2) with
  | .ok e => e
  | .error _ => envFallback

/-- The gate-target environment built by the constructor on `gateT`. -/
def envG : Env :=
  match QuantumEnvironment_init ext0 gateT "circuit" ⟨0⟩ 10 1 (1/2) with
  | .ok e => e
  | .error _ => envFallback

/-- `envG` after one successful, benchmarked step. -/
def envG1 : Env := (perform_action ext0 envG [[0]] true 0 [0] true (.ok [0])).2

/-- If `q·10^5` rounds down (fractional part below one half), `np.round(q,5)`
is its floor over `10^5`. -/
lemma np_round5_eq_down (q : ℚ) (n : ℤ) (hf : ⌊q * 100000⌋ = n)
    (hlt : q * 100000 - (n : ℚ) < 1/2) : np_round5 q = (n : ℚ) / 100000 := by
  unfold np_round5 np_round_int
  rw [hf, if_pos hlt]


lemma mem_insertSorted (a b : Nat) (l : List Nat) :
    a ∈ insertSorted b l ↔ a = b ∨ a ∈ l := by
  induction l with
  | nil => simp [insertSorted]
  | cons c t ih =>
    by_cases h : b ≤ c
    · simp [insertSorted, h]
    · simp [insertSorted, h, ih]
      tauto

lemma mem_sortNat (a : Nat) (l : List Nat) : a ∈ sortNat l ↔ a ∈ l := by
  induction l with
  | nil => simp [sortNat]
  | cons b t ih =>
    simp only [sortNat, List.foldr_cons] at *
    rw [mem_insertSorted]
    simp [ih]

lemma mem_npUnique (a : Nat) (l : List Nat) : a ∈ npUnique l ↔ a ∈ l := by
  rw [npUnique, List.mem_dedup, mem_sortNat]

/-- Any nonempty sample list yields a nonempty list of distinct indices:
the defensive "zero distinct draws" situation cannot arise from `M ≥ 1`
draws. -/
lemma npUnique_ne_nil (l : List Nat) (h : l ≠ []) : npUnique l ≠ [] := by
  match l with
  | [] => exact absurd rfl h
  | a :: t =>
    intro hc
    have : a ∈ npUnique (a :: t) := (mem_npUnique a (a :: t)).mpr (by simp)
    rw [hc] at this
    simp at this

/-- The tuple of environment components that `_store_benchmarks` never
touches: action/reward/circuit histories, step counter, target, target type,
abstraction level. -/
def histFrame (e : Env) :
    List (List (List ℚ)) × List (List Circuit) × List (List ℚ) × Nat × TDict × String × String :=
  (e.action_history, e.qc_history, e.reward_history, e.step_tracker,
   e.target, e.target_type, e.abstraction_level)

/-- The components untouched by the whole of `prepare` except for the two
history appends: reward history, step counter, target, target type,
abstraction level. -/
def stepFrame (e : Env) : List (List ℚ) × Nat × TDict × String × String :=
  (e.reward_history, e.step_tracker, e.target, e.target_type, e.abstraction_level)

lemma pfa_frame (ext : Extern) (env : Env) (u : List Op) :
    histFrame (pulse_fidelity_appends ext env u).2 = histFrame env := by
  unfold pulse_fidelity_appends
  dsimp only
  repeat' split
  all_goals rfl

lemma abu_frame (u : List Op) (r : Except Err Unit × Env) :
    histFrame (append_built_unitaries u r).2 = histFrame r.2 := by
  obtain ⟨exc, e⟩ := r
  cases exc with
  | error err => rfl
  | ok v =>
    unfold append_built_unitaries
    dsimp only
    split
    all_goals rfl

/-- `_store_benchmarks` touches only the benchmark buffers: the action,
reward and circuit histories, the step counter, the target and the target
type are unchanged on every path, success or raise. -/
lemma sb_frame (ext : Extern) (env : Env) (l : List Circuit) :
    histFrame (_store_benchmarks ext env l).2 = histFrame env := by
  unfold _store_benchmarks
  dsimp only
  split
  · repeat' split
    all_goals rfl
  · split
    · rw [abu_frame]
      exact pfa_frame ext env _
    · rfl

lemma sb_action (ext : Extern) (env : Env) (l : List Circuit) :
    (_store_benchmarks ext env l).2.action_history = env.action_history :=
  congrArg (fun t => t.1) (sb_frame ext env l)

lemma sb_stepFrame (ext : Extern) (env : Env) (l : List Circuit) :
    stepFrame (_store_benchmarks ext env l).2 = stepFrame env :=
  congrArg (fun t => t.2.2) (sb_frame ext env l)

lemma prepare_action (ext : Extern) (env : Env) (a : List (List ℚ)) (db : Bool)
    (ri : Nat) (ks : List Nat) :
    (prepare ext env a db ri ks).2.action_history = env.action_history ++ [a] := by
  unfold prepare
  cases db with
  | false =>
    dsimp only
    repeat' split
    all_goals try rfl
    all_goals
      rename_i x e2 heq
      rw [if_neg (by simp)] at heq
      rw [Prod.mk.injEq] at heq
      first
      | exact Except.noConfusion heq.1
      | (dsimp only
         rw [← heq.2]
         try rfl)
  | true =>
    dsimp only
    repeat' split
    all_goals try rfl
    all_goals
      rename_i x e2 heq
      rw [if_pos rfl] at heq
      have h2 := congrArg Prod.snd heq
      dsimp only at h2 ⊢
      rw [← h2, sb_action]

lemma prepare_stepFrame (ext : Extern) (env : Env) (a : List (List ℚ)) (db : Bool)
    (ri : Nat) (ks : List Nat) :
    stepFrame (prepare ext env a db ri ks).2 = stepFrame env := by
  unfold prepare
  cases db with
  | false =>
    dsimp only
    repeat' split
    all_goals try rfl
    all_goals
      rename_i x e2 heq
      rw [if_neg (by simp)] at heq
      rw [Prod.mk.injEq] at heq
      first
      | exact Except.noConfusion heq.1
      | (dsimp only
         rw [← heq.2]
         try rfl)
  | true =>
    dsimp only
    repeat' split
    all_goals try rfl
    all_goals
      rename_i x e2 heq
      rw [if_pos rfl] at heq
      have h2 := congrArg Prod.snd heq
      dsimp only at h2 ⊢
      rw [← h2, sb_stepFrame]
      try rfl

lemma prepare_reward (ext : Extern) (env : Env) (a : List (List ℚ)) (db : Bool)
    (ri : Nat) (ks : List Nat) :
    (prepare ext env a db ri ks).2.reward_history = env.reward_history :=
  congrArg (fun t => t.1) (prepare_stepFrame ext env a db ri ks)

lemma prepare_step (ext : Extern) (env : Env) (a : List (List ℚ)) (db : Bool)
    (ri : Nat) (ks : List Nat) :
    (prepare ext env a db ri ks).2.step_tracker = env.step_tracker :=
  congrArg (fun t => t.2.1) (prepare_stepFrame ext env a db ri ks)

lemma prepare_target (ext : Extern) (env : Env) (a : List (List ℚ)) (db : Bool)
    (ri : Nat) (ks : List Nat) :
    (prepare ext env a db ri ks).2.target = env.target :=
  congrArg (fun t => t.2.2.1) (prepare_stepFrame ext env a db ri ks)

/-- Whatever the outcome, `perform_action` has appended the action batch to
`action_history` — the append at line 392 precedes every failure point. -/
lemma pa_action (ext : Extern) (env : Env) (a : List (List ℚ)) (db : Bool)
    (ri : Nat) (ks : List Nat) (rOk : Bool) (ro : Except Unit (List ℚ)) :
    (perform_action ext env a db ri ks rOk ro).2.action_history
      = env.action_history ++ [a] := by
  unfold perform_action
  split
  all_goals
    rename_i x e heq
    have h2 : (prepare ext env a db ri ks).2 = e := congrArg Prod.snd heq
    have he : e.action_history = env.action_history ++ [a] := by
      rw [← h2, prepare_action]
    repeat' split
    all_goals simpa using he

/-- A successful `perform_action` returns a reward table whose length is the
batch size (the assert at line 436 guards the only `return`). -/
lemma pa_ok_length (ext : Extern) (env : Env) (a : List (List ℚ)) (db : Bool)
    (ri : Nat) (ks : List Nat) (rOk : Bool) (ro : Except Unit (List ℚ)) (rt : List ℚ)
    (h : (perform_action ext env a db ri ks rOk ro).1 = .ok rt) :
    rt.length = a.length := by
  unfold perform_action at h
  repeat' split at h
  all_goals simp_all

/-- When the prepared step reaches the Estimator and the returned reward
vector has the wrong length, the step fails with the batch-size assert —
*after* appending the malformed vector to `reward_history` and incrementing
the step counter. -/
lemma pa_contract (ext : Extern) (env : Env) (a : List (List ℚ)) (db : Bool)
    (ri : Nat) (ks : List Nat) (rt : List ℚ)
    (hprep : (prepare ext env a db ri ks).1.isOk = true)
    (hlen : rt.length ≠ a.length) :
    (perform_action ext env a db ri ks true (.ok rt)).1 = .error .contractViolation ∧
    (perform_action ext env a db ri ks true (.ok rt)).2.reward_history
      = env.reward_history ++ [rt] ∧
    (perform_action ext env a db ri ks true (.ok rt)).2.step_tracker
      = env.step_tracker + 1 := by
  obtain ⟨req, hreq⟩ : ∃ req, (prepare ext env a db ri ks).1 = .ok req := by
    cases hpm : (prepare ext env a db ri ks).1 with
    | error e => rw [hpm] at hprep; exact Bool.noConfusion hprep
    | ok req => exact ⟨req, rfl⟩
  have hpp : prepare ext env a db ri ks = (.ok req, (prepare ext env a db ri ks).2) := by
    rw [← hreq]
  unfold perform_action
  rw [hpp]
  dsimp only
  rw [if_pos rfl, if_neg hlen]
  refine ⟨rfl, ?_, ?_⟩
  · dsimp only
    rw [prepare_reward]
  · dsimp only
    rw [prepare_step]

lemma pfa_statefid_of_ne (ext : Extern) (env : Env) (u : List Op)
    (h : ¬ env.target_type = "state") :
    (pulse_fidelity_appends ext env u).2.state_fidelity_history
      = env.state_fidelity_history := by
  unfold pulse_fidelity_appends
  rw [if_neg h]
  repeat' first | split | dsimp only

lemma abu_statefid (u : List Op) (r : Except Err Unit × Env) :
    (append_built_unitaries u r).2.state_fidelity_history
      = r.2.state_fidelity_history := by
  obtain ⟨exc, e⟩ := r
  cases exc with
  | error err => rfl
  | ok v =>
    unfold append_built_unitaries
    dsimp only
    split
    all_goals rfl

/-- `_store_benchmarks` never touches `state_fidelity_history` unless the
target type is `state` (both abstraction levels branch on it). -/
lemma sb_statefid_of_ne (ext : Extern) (env : Env) (l : List Circuit)
    (h : ¬ env.target_type = "state") :
    (_store_benchmarks ext env l).2.state_fidelity_history
      = env.state_fidelity_history := by
  unfold _store_benchmarks
  dsimp only
  split
  · repeat' first | split | dsimp only
  · split
    · try dsimp only
      rw [abu_statefid, pfa_statefid_of_ne ext env _ h]
    · rfl

lemma pfa_gatebufs_of_state (ext : Extern) (env : Env) (u : List Op)
    (h : env.target_type = "state") :
    (pulse_fidelity_appends ext env u).2.process_fidelity_history
      = env.process_fidelity_history ∧
    (pulse_fidelity_appends ext env u).2.avg_fidelity_history
      = env.avg_fidelity_history ∧
    (pulse_fidelity_appends ext env u).2.built_unitaries = env.built_unitaries := by
  unfold pulse_fidelity_appends
  rw [if_pos h]
  refine ⟨?_, ?_, ?_⟩ <;>
    repeat' first | split | dsimp only

lemma abu_avgproc (u : List Op) (r : Except Err Unit × Env) :
    (append_built_unitaries u r).2.process_fidelity_history
      = r.2.process_fidelity_history ∧
    (append_built_unitaries u r).2.avg_fidelity_history
      = r.2.avg_fidelity_history := by
  obtain ⟨exc, e⟩ := r
  cases exc with
  | error err => exact ⟨rfl, rfl⟩
  | ok v =>
    unfold append_built_unitaries
    dsimp only
    refine ⟨?_, ?_⟩ <;>
    · split
      all_goals rfl

lemma abu_built_none (u : List Op) (r : Except Err Unit × Env)
    (h : r.2.built_unitaries = none) :
    (append_built_unitaries u r).2.built_unitaries = none := by
  obtain ⟨exc, e⟩ := r
  cases exc with
  | error err => exact h
  | ok v =>
    unfold append_built_unitaries
    dsimp only
    dsimp only at h
    rw [h]
    exact h

/-- For a `state` target, `_store_benchmarks` never touches the gate-branch
buffers; in particular `built_unitaries` stays absent when absent (at pulse
level the line-487 append raises `AttributeError` before writing). -/
lemma sb_gatebufs_of_state (ext : Extern) (env : Env) (l : List Circuit)
    (h : env.target_type = "state") :
    (_store_benchmarks ext env l).2.process_fidelity_history
      = env.process_fidelity_history ∧
    (_store_benchmarks ext env l).2.avg_fidelity_history
      = env.avg_fidelity_history ∧
    (env.built_unitaries = none →
      (_store_benchmarks ext env l).2.built_unitaries = none) := by
  unfold _store_benchmarks
  dsimp only
  split
  · refine ⟨?_, ?_, fun hb => ?_⟩ <;>
    · repeat' first | split | dsimp only
      all_goals first | rfl | exact hb
  · split
    · have hp := pfa_gatebufs_of_state ext env (l.map Op.ofPulse) h
      refine ⟨?_, ?_, fun hb => ?_⟩
      · try dsimp only
        rw [(abu_avgproc _ _).1, hp.1]
      · try dsimp only
        rw [(abu_avgproc _ _).2, hp.2.1]
      · try dsimp only
        exact abu_built_none _ _ (by rw [hp.2.2]; exact hb)
    · exact ⟨rfl, rfl, fun hb => hb⟩

lemma sb_process_of_state (ext : Extern) (env : Env) (l : List Circuit)
    (h : env.target_type = "state") :
    (_store_benchmarks ext env l).2.process_fidelity_history
      = env.process_fidelity_history :=
  (sb_gatebufs_of_state ext env l h).1

lemma sb_avg_of_state (ext : Extern) (env : Env) (l : List Circuit)
    (h : env.target_type = "state") :
    (_store_benchmarks ext env l).2.avg_fidelity_history
      = env.avg_fidelity_history :=
  (sb_gatebufs_of_state ext env l h).2.1

lemma sb_built_none_of_state (ext : Extern) (env : Env) (l : List Circuit)
    (h : env.target_type = "state") (hb : env.built_unitaries = none) :
    (_store_benchmarks ext env l).2.built_unitaries = none :=
  (sb_gatebufs_of_state ext env l h).2.2 hb

/-- At the circuit abstraction level, `_store_benchmarks` appends the batch
density matrix to `density_matrix_history` for *every* target type
(line 450 precedes the target-type branch). -/
lemma sb_density_circuit (ext : Extern) (env : Env) (l : List Circuit)
    (h : env.abstraction_level = "circuit") :
    (_store_benchmarks ext env l).2.density_matrix_history
      = env.density_matrix_history ++ [DMv.meanSV l] := by
  unfold _store_benchmarks
  dsimp only
  rw [if_pos h]
  repeat' first | split | dsimp only

lemma prepare_statefid_of_ne (ext : Extern) (env : Env) (a : List (List ℚ)) (db : Bool)
    (ri : Nat) (ks : List Nat) (h : ¬ env.target_type = "state") :
    (prepare ext env a db ri ks).2.state_fidelity_history
      = env.state_fidelity_history := by
  unfold prepare
  cases db with
  | false =>
    dsimp only
    repeat' split
    all_goals try rfl
    all_goals
      rename_i x e2 heq
      rw [if_neg (by simp)] at heq
      rw [Prod.mk.injEq] at heq
      first
      | exact Except.noConfusion heq.1
      | (dsimp only
         rw [← heq.2]
         try rfl)
  | true =>
    dsimp only
    repeat' split
    all_goals try rfl
    all_goals
      rename_i x e2 heq
      rw [if_pos rfl] at heq
      have h2 := congrArg Prod.snd heq
      dsimp only at h2 ⊢
      rw [← h2]
      exact sb_statefid_of_ne ext _ _ h

lemma prepare_process_of_state (ext : Extern) (env : Env) (a : List (List ℚ)) (db : Bool)
    (ri : Nat) (ks : List Nat) (h : env.target_type = "state") :
    (prepare ext env a db ri ks).2.process_fidelity_history
      = env.process_fidelity_history := by
  unfold prepare
  cases db with
  | false =>
    dsimp only
    repeat' split
    all_goals try rfl
    all_goals
      rename_i x e2 heq
      rw [if_neg (by simp)] at heq
      rw [Prod.mk.injEq] at heq
      first
      | exact Except.noConfusion heq.1
      | (dsimp only
         rw [← heq.2]
         try rfl)
  | true =>
    dsimp only
    repeat' split
    all_goals try rfl
    all_goals
      rename_i x e2 heq
      rw [if_pos rfl] at heq
      have h2 := congrArg Prod.snd heq
      dsimp only at h2 ⊢
      rw [← h2]
      exact sb_process_of_state ext _ _ h

lemma prepare_avg_of_state (ext : Extern) (env : Env) (a : List (List ℚ)) (db : Bool)
    (ri : Nat) (ks : List Nat) (h : env.target_type = "state") :
    (prepare ext env a db ri ks).2.avg_fidelity_history
      = env.avg_fidelity_history := by
  unfold prepare
  cases db with
  | false =>
    dsimp only
    repeat' split
    all_goals try rfl
    all_goals
      rename_i x e2 heq
      rw [if_neg (by simp)] at heq
      rw [Prod.mk.injEq] at heq
      first
      | exact Except.noConfusion heq.1
      | (dsimp only
         rw [← heq.2]
         try rfl)
  | true =>
    dsimp only
    repeat' split
    all_goals try rfl
    all_goals
      rename_i x e2 heq
      rw [if_pos rfl] at heq
      have h2 := congrArg Prod.snd heq
      dsimp only at h2 ⊢
      rw [← h2]
      exact sb_avg_of_state ext _ _ h

lemma prepare_built_none_of_state (ext : Extern) (env : Env) (a : List (List ℚ)) (db : Bool)
    (ri : Nat) (ks : List Nat) (h : env.target_type = "state")
    (hb : env.built_unitaries = none) :
    (prepare ext env a db ri ks).2.built_unitaries = none := by
  unfold prepare
  cases db with
  | false =>
    dsimp only
    repeat' split
    all_goals try exact hb
    all_goals
      rename_i x e2 heq
      rw [if_neg (by simp)] at heq
      rw [Prod.mk.injEq] at heq
      first
      | exact Except.noConfusion heq.1
      | (dsimp only
         rw [← heq.2]
         try exact hb)
  | true =>
    dsimp only
    repeat' split
    all_goals try exact hb
    all_goals
      rename_i x e2 heq
      rw [if_pos rfl] at heq
      have h2 := congrArg Prod.snd heq
      dsimp only at h2 ⊢
      rw [← h2]
      exact sb_built_none_of_state ext _ _ h hb

/-- A gate-target step never changes `state_fidelity_history` (in particular a
buffer that does not exist stays nonexistent). -/
lemma pa_statefid_of_ne (ext : Extern) (env : Env) (a : List (List ℚ)) (db : Bool)
    (ri : Nat) (ks : List Nat) (rOk : Bool) (ro : Except Unit (List ℚ))
    (h : ¬ env.target_type = "state") :
    (perform_action ext env a db ri ks rOk ro).2.state_fidelity_history
      = env.state_fidelity_history := by
  unfold perform_action
  split
  all_goals
    rename_i x e heq
    have h2 : (prepare ext env a db ri ks).2 = e := congrArg Prod.snd heq
    have he : e.state_fidelity_history = env.state_fidelity_history := by
      rw [← h2]
      exact prepare_statefid_of_ne ext env a db ri ks h
    repeat' split
    all_goals simpa using he

/-- A state-target step never changes `process_fidelity_history`. -/
lemma pa_process_of_state (ext : Extern) (env : Env) (a : List (List ℚ)) (db : Bool)
    (ri : Nat) (ks : List Nat) (rOk : Bool) (ro : Except Unit (List ℚ))
    (h : env.target_type = "state") :
    (perform_action ext env a db ri ks rOk ro).2.process_fidelity_history
      = env.process_fidelity_history := by
  unfold perform_action
  split
  all_goals
    rename_i x e heq
    have h2 : (prepare ext env a db ri ks).2 = e := congrArg Prod.snd heq
    have he : e.process_fidelity_history = env.process_fidelity_history := by
      rw [← h2]
      exact prepare_process_of_state ext env a db ri ks h
    repeat' split
    all_goals simpa using he

/-- A state-target step never changes `avg_fidelity_history`. -/
lemma pa_avg_of_state (ext : Extern) (env : Env) (a : List (List ℚ)) (db : Bool)
    (ri : Nat) (ks : List Nat) (rOk : Bool) (ro : Except Unit (List ℚ))
    (h : env.target_type = "state") :
    (perform_action ext env a db ri ks rOk ro).2.avg_fidelity_history
      = env.avg_fidelity_history := by
  unfold perform_action
  split
  all_goals
    rename_i x e heq
    have h2 : (prepare ext env a db ri ks).2 = e := congrArg Prod.snd heq
    have he : e.avg_fidelity_history = env.avg_fidelity_history := by
      rw [← h2]
      exact prepare_avg_of_state ext env a db ri ks h
    repeat' split
    all_goals simpa using he

/-- A state-target step never creates `built_unitaries`: absent stays absent
(the pulse-level line-487 append dies with `AttributeError` instead). -/
lemma pa_built_none_of_state (ext : Extern) (env : Env) (a : List (List ℚ)) (db : Bool)
    (ri : Nat) (ks : List Nat) (rOk : Bool) (ro : Except Unit (List ℚ))
    (h : env.target_type = "state") (hb : env.built_unitaries = none) :
    (perform_action ext env a db ri ks rOk ro).2.built_unitaries = none := by
  unfold perform_action
  split
  all_goals
    rename_i x e heq
    have h2 : (prepare ext env a db ri ks).2 = e := congrArg Prod.snd heq
    have he : e.built_unitaries = none := by
      rw [← h2]
      exact prepare_built_none_of_state ext env a db ri ks h hb
    repeat' split
    all_goals simpa using he

/-- `perform_action` leaves the resolved target untouched. -/
lemma pa_target (ext : Extern) (env : Env) (a : List (List ℚ)) (db : Bool)
    (ri : Nat) (ks : List Nat) (rOk : Bool) (ro : Except Unit (List ℚ)) :
    (perform_action ext env a db ri ks rOk ro).2.target = env.target := by
  unfold perform_action
  split
  all_goals
    rename_i x e heq
    have h2 : (prepare ext env a db ri ks).2 = e := congrArg Prod.snd heq
    have he : e.target = env.target := by
      rw [← h2]
      exact prepare_target ext env a db ri ks
    repeat' split
    all_goals simpa using he

/-- With an empty drawn-sample list (a sampling budget of 0), the state-target
step dies constructing `SparsePauliOp.from_list([])`, the collaborator's
`QiskitError` — there is no environment-level defensive check. -/
lemma prepare_empty_samples (ext : Extern) (env : Env) (a : List (List ℚ)) (db : Bool)
    (ri : Nat) (ht : env.target_type = "state") (hc : env.target.Chi.isSome) :
    (prepare ext env a db ri []).1 = .error .emptyPauliList := by
  obtain ⟨chi, hchi⟩ := Option.isSome_iff_exists.mp hc
  unfold prepare
  dsimp only
  rw [if_neg (by rw [ht]; simp), hchi]
  rfl

lemma pa_empty_samples (ext : Extern) (env : Env) (a : List (List ℚ)) (db : Bool)
    (ri : Nat) (rOk : Bool) (ro : Except Unit (List ℚ))
    (ht : env.target_type = "state") (hc : env.target.Chi.isSome) :
    (perform_action ext env a db ri [] rOk ro).1 = .error .emptyPauliList := by
  have hp := prepare_empty_samples ext env a db ri ht hc
  have hpp : prepare ext env a db ri [] =
      (.error .emptyPauliList, (prepare ext env a db ri []).2) := by
    rw [← hp]
  unfold perform_action
  rw [hpp]

/-- Raw targets with none of `gate`/`circuit`/`dm` are rejected (line 201). -/
lemma dt_none_rejected (ext : Extern) (t : TDict) (h1 : t.gate = none)
    (h2 : t.circuit = none) (h3 : t.dm = none) :
    _define_target ext t = .error .noTargetKey := by
  simp [_define_target, h1, h2, h3]

/-- Raw targets with `gate` plus `circuit` or `dm` are rejected (line 204). -/
lemma dt_both_rejected (ext : Extern) (t : TDict) (g : Gate) (h1 : t.gate = some g)
    (h2 : t.circuit.isSome ∨ t.dm.isSome) :
    _define_target ext t = .error .bothTargetsKey := by
  unfold _define_target
  rcases h2 with h2 | h2 <;> obtain ⟨c, hc⟩ := Option.isSome_iff_exists.mp h2 <;>
    simp [h1, hc]

/-- Every entry produced by the input-state resolution loop carries its `dm`
and a `target_state` with a computed Chi vector. -/
lemma resolveInputStates_mem (ext : Extern) (g : Gate) (qr n : Nat) :
    ∀ (l states : List InputState), resolveInputStates ext g qr n l = .ok states →
      ∀ is0 ∈ states, is0.dm.isSome ∧
        ∃ st, is0.target_state = some st ∧ st.Chi.isSome := by
  intro l
  induction l with
  | nil =>
    intro states h is0 hmem
    unfold resolveInputStates at h
    cases h
    simp at hmem
  | cons hd tl ih =>
    intro states h is0 hmem
    unfold resolveInputStates at h
    repeat' first
      | split at h
      | dsimp only [_calculate_chi_target_state] at h
    all_goals try exact Except.noConfusion h
    all_goals
      cases h
      rcases List.mem_cons.mp hmem with hmem | hmem
      · subst hmem
        exact ⟨rfl, _, rfl, rfl⟩
      · exact ih _ (by assumption) is0 hmem

/-- `_define_target` mutates the caller's mapping in place: on success the
returned target is the input record with only the derived entries written
(`target_type`, `dm`, `Chi`, `input_states`; per input state its `dm` and a
`target_state` holding a Chi vector) — every other entry, including unknown
extra keys, is exactly the caller's. -/
lemma dt_frame (ext : Extern) (t t' : TDict) (tt : String) (qr n : Nat) (lay : List Nat)
    (h : _define_target ext t = .ok (t', tt, qr, n, lay)) :
    t'.extra = t.extra ∧ t'.register = t.register ∧ t'.gate = t.gate ∧
    t'.circuit = t.circuit ∧ t'.target_type = some tt ∧
    (tt = "state" ∨ tt = "gate") ∧
    (tt = "state" → t'.dm.isSome ∧ t'.Chi.isSome) ∧
    (tt = "gate" → ∃ states, t'.input_states = some states ∧
      ∀ is0 ∈ states, is0.dm.isSome ∧
        ∃ st, is0.target_state = some st ∧ st.Chi.isSome) := by
  unfold _define_target at h
  repeat' first
    | split at h
    | dsimp only [_calculate_chi_target_state, resolve_gate_target] at h
  all_goals try exact Except.noConfusion h
  all_goals cases h
  all_goals
    refine ⟨by simp_all, by simp_all, by simp_all, by simp_all, by simp_all,
            by simp_all, by simp_all, ?_⟩
    intro hgate
    first
    | exact absurd hgate (by decide)
    | exact ⟨_, rfl, resolveInputStates_mem ext _ _ _ _ _ (by assumption)⟩

/-- Every successfully resolved target records its kind: a `gate` entry for
gate targets, a `dm` entry for state targets. -/
lemma dt_kind (ext : Extern) (t t' : TDict) (tt : String) (qr n : Nat) (lay : List Nat)
    (h : _define_target ext t = .ok (t', tt, qr, n, lay)) :
    t'.gate.isSome ∨ t'.dm.isSome := by
  unfold _define_target at h
  repeat' first
    | split at h
    | dsimp only [_calculate_chi_target_state, resolve_gate_target] at h
  all_goals try exact Except.noConfusion h
  all_goals cases h
  all_goals first
    | (left
       simp_all
       done)
    | (right
       simp_all)

/-- A successfully constructed environment stores exactly the resolver's
output: its internal target *is* the (in-place updated) caller mapping. -/
lemma init_target (ext : Extern) (t : TDict) (al : String) (cfg : QiskitConfig)
    (spc ns : Nat) (c : ℚ) (env : Env)
    (h : QuantumEnvironment_init ext t al cfg spc ns c = .ok env) :
    ∃ qr n lay, _define_target ext t = .ok (env.target, env.target_type, qr, n, lay) := by
  unfold QuantumEnvironment_init at h
  split at h
  · exact Except.noConfusion h
  · split at h
    · exact Except.noConfusion h
    · cases h
      exact ⟨_, _, _, by assumption⟩

/-- `json.dumps` cannot serialize any resolved target: the stored `gate`
object or `DensityMatrix` makes `to_json` raise `TypeError`, whatever the
remaining snapshot fields hold. -/
lemma to_json_fails (ext : Extern) (env : Env)
    (h : env.target.gate.isSome ∨ env.target.dm.isSome) :
    to_json ext env = .error .jsonTypeError := by
  have hser : tdictSerializable env.target = false := by
    unfold tdictSerializable
    rcases h with h | h <;> obtain ⟨x, hx⟩ := Option.isSome_iff_exists.mp h <;> simp [hx]
  simp [to_json, hser]

/-- The i-th reward weight belongs to the i-th distinct sampled index and is
exactly the rounded importance-sampling weight of the source formula. -/
lemma reward_factor_get (c : ℚ) (d : Nat) (Chi : List ℚ) (ks : List Nat) (i p : Nat)
    (h : (npUnique ks).get? i = some p) :
    (reward_factor c d Chi (npUnique ks)).get? i
      = some (np_round5 (c * Chi.getD p 0 /
          ((d : ℚ) * catProb (Chi.map (fun x => x ^ 2)) p))) := by
  rw [reward_factor, List.get?_map, h]
  rfl

/-- For the hand-computed 1-qubit example (`chi = [1,0,0,1]`, `d = 2`),
every weight the sampler can produce equals `np.round(c, 5)` — the
importance-sampling factor cancels since `P(0) = P(3) = 1/2`. -/
lemma reward_factor_example (c : ℚ) (ks : List Nat) (hks : ∀ k ∈ ks, k = 0 ∨ k = 3)
    (w : ℚ) (hw : w ∈ reward_factor c 2 [1, 0, 0, 1] (npUnique ks)) :
    w = np_round5 c := by
  rw [reward_factor] at hw
  obtain ⟨p, hp, hfp⟩ := List.mem_map.mp hw
  have hp2 : p = 0 ∨ p = 3 := hks p ((mem_npUnique p ks).mp hp)
  have harg : c * ([1, 0, 0, 1] : List ℚ).getD p 0 /
      ((2 : ℚ) * catProb (([1, 0, 0, 1] : List ℚ).map (fun x => x ^ 2)) p) = c := by
    rcases hp2 with rfl | rfl <;> norm_num [catProb]
  rw [← hfp]
  push_cast
  rw [harg]

/-- The state-target environment built with `c_factor = 0` (used where whole
environments are compared, keeping all rational fields literal). -/
def envS0 : Env :=
  match QuantumEnvironment_init ext0 stateT "circuit" ⟨0⟩ 10 1 0 with
  | .ok e => e
  | .error _ => envFallback

/-- C1, counterexample: the claim "for the 1-qubit example with
`chi = [1,0,0,1]` and `d = 2`, every sampled index receives weight exactly
`c`" fails at the concrete reward-scale factor `c = 1/3`: the code's weight
(`reward_factor`, the computation of `perform_action` lines 408-409) is
`round(1/3, 5) = 0.33333 ≠ 1/3`. -/
theorem C1_counterexample :
    reward_factor (1/3) 2 [1, 0, 0, 1] (npUnique [0]) = [33333/100000] ∧
    (33333/100000 : ℚ) ≠ (1/3 : ℚ) := by
  constructor
  · have h : npUnique [0] = [0] := by decide
    rw [h]
    show [np_round5 ((1/3 : ℚ) * (([1, 0, 0, 1] : List ℚ).getD 0 0) /
      ((2 : ℚ) * catProb (([1, 0, 0, 1] : List ℚ).map (fun x => x ^ 2)) 0))] = _
    have harg : (1/3 : ℚ) * (([1, 0, 0, 1] : List ℚ).getD 0 0) /
        ((2 : ℚ) * catProb (([1, 0, 0, 1] : List ℚ).map (fun x => x ^ 2)) 0) = 1/3 := by
      norm_num [catProb]
    rw [harg, np_round5_eq_down (1/3) 33333 (by rw [Int.floor_eq_iff]; norm_num)
      (by push_cast; norm_num)]
    norm_num
  · norm_num

/-- C1 (amended): every distinct sampled Pauli index `p` receives the weight
`round(c · chi[p] / (d · P(p)), 5)` where `P` is the sampling distribution's
probability mass (`Categorical(probs=chi²)`, i.e. `chi[p]²/Σchi²`); for the
1-qubit example with `chi = [1,0,0,1]`, `d = 2`, every sampled index receives
weight `round(c, 5)` — equal to `c` exactly when `c` is a multiple of
`10⁻⁵`, e.g. the default `c = 0.5`, but not for general `c`. -/
theorem C1_amended_thm :
    (∀ (c : ℚ) (d : Nat) (Chi : List ℚ) (ks : List Nat) (i p : Nat),
        (npUnique ks).get? i = some p →
        (reward_factor c d Chi (npUnique ks)).get? i
          = some (np_round5 (c * Chi.getD p 0 /
              ((d : ℚ) * catProb (Chi.map (fun x => x ^ 2)) p)))) ∧
    (∀ (c : ℚ) (ks : List Nat), (∀ k ∈ ks, k = 0 ∨ k = 3) →
        ∀ w ∈ reward_factor c 2 [1, 0, 0, 1] (npUnique ks), w = np_round5 c) ∧
    np_round5 (1/2) = 1/2 := by
  refine ⟨reward_factor_get, ?_, ?_⟩
  · intro c ks hks w hw
    exact reward_factor_example c ks hks w hw
  · rw [np_round5_eq_down (1/2) 50000 (by rw [Int.floor_eq_iff]; norm_num)
      (by push_cast; norm_num)]
    norm_num

/-- Witness for C1 (amended), at `ks = [0]`, `c = 1` for the general formula
and `c` arbitrary with `w` the produced weight for the example part. -/
theorem C1_amended_witness :
    (reward_factor 1 2 [1, 0, 0, 1] (npUnique [0])).get? 0
      = some (np_round5 (1 * (([1, 0, 0, 1] : List ℚ).getD 0 0) /
          ((2 : ℚ) * catProb (([1, 0, 0, 1] : List ℚ).map (fun x => x ^ 2)) 0))) ∧
    np_round5 ((1/2 : ℚ) * (([1, 0, 0, 1] : List ℚ).getD 0 0) /
        ((2 : ℚ) * catProb (([1, 0, 0, 1] : List ℚ).map (fun x => x ^ 2)) 0))
      = np_round5 (1/2) := by
  constructor
  · exact C1_amended_thm.1 1 2 [1, 0, 0, 1] [0] 0 0 (by decide)
  · refine C1_amended_thm.2.1 (1/2) [0] (by decide) _ ?_
    rw [show npUnique [0] = [0] from by decide]
    simp [reward_factor]

/-- C2, counterexample: a step that fails (the Estimator raises) does *not*
leave the history buffers unmodified — the action batch appended at line 392
survives the failure, so the per-step history append is not all-or-nothing. -/
theorem C2_counterexample :
    (perform_action ext0 envS [[0]] false 0 [0] false (.ok [0])).1
      = .error .estimatorRaised ∧
    (perform_action ext0 envS [[0]] false 0 [0] false (.ok [0])).2.action_history
      ≠ envS.action_history := by
  constructor
  · decide
  · decide

/-- C2 (amended): a failing step keeps the mutations made before the failure
point: the action batch is always appended to `action_history`, success or
failure; and when the failure is the reward-shape assert, the malformed
reward vector has already been appended to `reward_history` and the step
counter incremented. -/
theorem C2_amended_thm :
    (∀ (ext : Extern) (env : Env) (a : List (List ℚ)) (db : Bool) (ri : Nat)
        (ks : List Nat) (rOk : Bool) (ro : Except Unit (List ℚ)),
        (perform_action ext env a db ri ks rOk ro).2.action_history
          = env.action_history ++ [a]) ∧
    (∀ (ext : Extern) (env : Env) (a : List (List ℚ)) (db : Bool) (ri : Nat)
        (ks : List Nat) (rt : List ℚ),
        (prepare ext env a db ri ks).1.isOk = true → rt.length ≠ a.length →
        (perform_action ext env a db ri ks true (.ok rt)).1 = .error .contractViolation ∧
        (perform_action ext env a db ri ks true (.ok rt)).2.reward_history
          = env.reward_history ++ [rt] ∧
        (perform_action ext env a db ri ks true (.ok rt)).2.step_tracker
          = env.step_tracker + 1) :=
  ⟨pa_action, fun ext env a db ri ks rt h1 h2 => pa_contract ext env a db ri ks rt h1 h2⟩

/-- Witness for C2 (amended): a concrete state-target step with a
wrong-length reward vector. -/
theorem C2_amended_witness :
    (perform_action ext0 envS [[0]] false 0 [0] false (.ok [0])).2.action_history
      = envS.action_history ++ [[[0]]] ∧
    (perform_action ext0 envS [[0]] false 0 [0] true (.ok [0, 0])).1
      = .error .contractViolation ∧
    (perform_action ext0 envS [[0]] false 0 [0] true (.ok [0, 0])).2.reward_history
      = envS.reward_history ++ [[0, 0]] ∧
    (perform_action ext0 envS [[0]] false 0 [0] true (.ok [0, 0])).2.step_tracker
      = envS.step_tracker + 1 :=
  ⟨C2_amended_thm.1 ext0 envS [[0]] false 0 [0] false (.ok [0]),
   C2_amended_thm.2 ext0 envS [[0]] false 0 [0] [0, 0] (by decide) (by decide)⟩

/-- C3: target resolution with an absent register.  The state-target half of
the claim holds: resolution succeeds with a trivial contiguous register of
the density matrix's qubit count (register size 1, trivial layout `[0]`).
The gate-target half exhibits the code bug: with no register and no explicit
input states, line 240 evaluates `len(tgt_register)` on `None` and dies with
`TypeError` instead of generating the `4^n` default input states from the
freshly defaulted register. -/
theorem C3_code_bug_eval :
    _define_target ext0 stateT
      = .ok ({ stateT with target_type := some "state", Chi := some [0, 0, 0, 0] },
             "state", 1, 1, [0]) ∧
    _define_target ext0 gateNoRegT = .error .typeErrorLenNone ∧
    errClass .typeErrorLenNone = "TypeError" := by
  refine ⟨by decide, by decide, rfl⟩

/-- C4: the mutual-exclusion checks of `_define_target` (lines 201-205): a
raw target with none of `gate`/`circuit`/`dm` and one with `gate` plus a
state field both fail with the spec's `ConfigError`-class `KeyError`; the
target kind is never defaulted. -/
theorem C4_thm :
    (∀ (ext : Extern) (t : TDict), t.gate = none → t.circuit = none → t.dm = none →
        _define_target ext t = .error .noTargetKey) ∧
    (∀ (ext : Extern) (t : TDict) (g : Gate), t.gate = some g →
        (t.circuit.isSome ∨ t.dm.isSome) →
        _define_target ext t = .error .bothTargetsKey) ∧
    errClass .noTargetKey = "ConfigError" ∧ errClass .bothTargetsKey = "ConfigError" :=
  ⟨dt_none_rejected, dt_both_rejected, rfl, rfl⟩

/-- Witness for C4: the empty target and a `gate`+`dm` target. -/
theorem C4_witness :
    _define_target ext0
      { register := none, gate := none, circuit := none, dm := none,
        input_states := none, target_type := none, Chi := none, extra := 0 }
      = .error .noTargetKey ∧
    _define_target ext0
      { register := none, gate := some ⟨1, 5⟩, circuit := none, dm := some (DMv.given 1 7),
        input_states := none, target_type := none, Chi := none, extra := 0 }
      = .error .bothTargetsKey :=
  ⟨C4_thm.1 ext0 _ rfl rfl rfl, C4_thm.2.1 ext0 _ ⟨1, 5⟩ rfl (Or.inr rfl)⟩

/-- C5: a successful step returns a reward table of exactly the batch size,
and a wrong-length reward vector from the Estimator fails the step with the
spec's `ContractViolation` (the assert at line 436). -/
theorem C5_thm :
    (∀ (ext : Extern) (env : Env) (a : List (List ℚ)) (db : Bool) (ri : Nat)
        (ks : List Nat) (rOk : Bool) (ro : Except Unit (List ℚ)) (rt : List ℚ),
        (perform_action ext env a db ri ks rOk ro).1 = .ok rt →
        rt.length = a.length) ∧
    (∀ (ext : Extern) (env : Env) (a : List (List ℚ)) (db : Bool) (ri : Nat)
        (ks : List Nat) (rt : List ℚ),
        (prepare ext env a db ri ks).1.isOk = true → rt.length ≠ a.length →
        (perform_action ext env a db ri ks true (.ok rt)).1 = .error .contractViolation) ∧
    errClass .contractViolation = "ContractViolation" :=
  ⟨pa_ok_length,
   fun ext env a db ri ks rt h1 h2 => (pa_contract ext env a db ri ks rt h1 h2).1,
   rfl⟩

/-- Witness for C5: a concrete successful step of batch size 1 and a
concrete step whose Estimator returns 2 values for a batch of 1. -/
theorem C5_witness :
    ([0] : List ℚ).length = ([[0]] : List (List ℚ)).length ∧
    (perform_action ext0 envS [[0]] false 0 [0] true (.ok [0, 0])).1
      = .error .contractViolation :=
  ⟨C5_thm.1 ext0 envS [[0]] false 0 [0] true (.ok [0]) [0] (by decide),
   C5_thm.2.1 ext0 envS [[0]] false 0 [0] [0, 0] (by decide) (by decide)⟩

/-- C6, counterexample: with zero distinct drawn indices the step *does*
fail, but with the external `SparsePauliOp.from_list([])` rejection
(qiskit's `QiskitError`), not an environment-level `EstimationError` — no
defensive check exists in `perform_action`. -/
theorem C6_counterexample :
    (perform_action ext0 envS [[0]] false 0 [] true (.ok [0])).1
      = .error .emptyPauliList ∧
    errClass .emptyPauliList = "QiskitError" ∧
    errClass .emptyPauliList ≠ "EstimationError" := by
  refine ⟨by decide, rfl, by decide⟩

/-- C6 (amended): zero distinct sampled indices (possible only when the
sampling budget is 0, since any nonempty draw has at least one distinct
index) makes the step fail inside the external observable constructor on the
empty Pauli list — a `QiskitError`, not an `EstimationError`-class check of
the environment. -/
theorem C6_amended_thm :
    (∀ (ext : Extern) (env : Env) (a : List (List ℚ)) (db : Bool) (ri : Nat)
        (rOk : Bool) (ro : Except Unit (List ℚ)),
        env.target_type = "state" → env.target.Chi.isSome →
        (perform_action ext env a db ri [] rOk ro).1 = .error .emptyPauliList) ∧
    (∀ ks : List Nat, ks ≠ [] → npUnique ks ≠ []) ∧
    errClass .emptyPauliList ≠ "EstimationError" := by
  refine ⟨?_, npUnique_ne_nil, by decide⟩
  intro ext env a db ri rOk ro h1 h2
  exact pa_empty_samples ext env a db ri rOk ro h1 h2

/-- Witness for C6 (amended): the concrete state-target environment with an
empty sample list, and a singleton sample list. -/
theorem C6_amended_witness :
    (perform_action ext0 envS [[0]] true 0 [] true (.ok [0])).1
      = .error .emptyPauliList ∧
    npUnique [5] ≠ [] :=
  ⟨C6_amended_thm.1 ext0 envS [[0]] true 0 true (.ok [0]) (by decide) (by decide),
   C6_amended_thm.2.1 [5] (by decide)⟩

/-- C7: `clear_history` on a gate-target, circuit-level environment after one
successful benchmarked step does *not* empty every populated buffer: the
`density_matrix_history` entry appended by `_store_benchmarks` (line 450,
unconditional at circuit level) survives `clear_history` — and survives a
second call too — because the gate branch of `clear_history` (lines 531-534)
never clears it. -/
theorem C7_code_bug_eval :
    (perform_action ext0 envG [[0]] true 0 [0] true (.ok [0])).1 = .ok [0] ∧
    (clear_history envG1).qc_history = [] ∧
    (clear_history envG1).action_history = [] ∧
    (clear_history envG1).reward_history = [] ∧
    (clear_history envG1).density_matrix_history ≠ [] ∧
    (clear_history (clear_history envG1)).density_matrix_history ≠ [] := by
  refine ⟨by decide, by decide, by decide, by decide, by decide, by decide⟩

/-- C8, counterexample: a gate-target instance at circuit level *does* append
to `density_matrix_history` — after one benchmarked step on the fresh
environment the buffer is nonempty, so the branch separation claimed for the
lifetime of the instance fails. -/
theorem C8_counterexample :
    envG.target_type = "gate" ∧ envG.abstraction_level = "circuit" ∧
    envG.density_matrix_history = [] ∧
    envG1.density_matrix_history ≠ [] := by
  refine ⟨by decide, by decide, by decide, by decide⟩

/-- C8 (amended): the branch buffers proper are exclusive — gate-target
instances never change `state_fidelity_history`, and state-target instances
never change `process_fidelity_history` or `avg_fidelity_history` and never
create `built_unitaries` — but `density_matrix_history` is shared: every
circuit-level benchmark appends to it regardless of target type. -/
theorem C8_amended_thm :
    (∀ (ext : Extern) (env : Env) (a : List (List ℚ)) (db : Bool) (ri : Nat)
        (ks : List Nat) (rOk : Bool) (ro : Except Unit (List ℚ)),
        ¬ env.target_type = "state" →
        (perform_action ext env a db ri ks rOk ro).2.state_fidelity_history
          = env.state_fidelity_history) ∧
    (∀ (ext : Extern) (env : Env) (a : List (List ℚ)) (db : Bool) (ri : Nat)
        (ks : List Nat) (rOk : Bool) (ro : Except Unit (List ℚ)),
        env.target_type = "state" →
        (perform_action ext env a db ri ks rOk ro).2.process_fidelity_history
            = env.process_fidelity_history ∧
        (perform_action ext env a db ri ks rOk ro).2.avg_fidelity_history
            = env.avg_fidelity_history ∧
        (env.built_unitaries = none →
          (perform_action ext env a db ri ks rOk ro).2.built_unitaries = none)) ∧
    (∀ (ext : Extern) (env : Env) (l : List Circuit),
        env.abstraction_level = "circuit" →
        (_store_benchmarks ext env l).2.density_matrix_history
          = env.density_matrix_history ++ [DMv.meanSV l]) := by
  refine ⟨pa_statefid_of_ne, ?_, sb_density_circuit⟩
  intro ext env a db ri ks rOk ro h
  exact ⟨pa_process_of_state ext env a db ri ks rOk ro h,
         pa_avg_of_state ext env a db ri ks rOk ro h,
         fun hb => pa_built_none_of_state ext env a db ri ks rOk ro h hb⟩

/-- Witness for C8 (amended): the concrete gate- and state-target
environments, and a circuit-level benchmark append. -/
theorem C8_amended_witness :
    (perform_action ext0 envG [[0]] true 0 [0] true (.ok [0])).2.state_fidelity_history
      = envG.state_fidelity_history ∧
    (perform_action ext0 envS [[0]] true 0 [0] true (.ok [0])).2.process_fidelity_history
      = envS.process_fidelity_history ∧
    (_store_benchmarks ext0 envS []).2.density_matrix_history
      = envS.density_matrix_history ++ [DMv.meanSV []] :=
  ⟨C8_amended_thm.1 ext0 envG [[0]] true 0 [0] true (.ok [0]) (by decide),
   (C8_amended_thm.2.1 ext0 envS [[0]] true 0 [0] true (.ok [0]) (by decide)).1,
   C8_amended_thm.2.2 ext0 envS [] (by decide)⟩

/-- C9: serialization never succeeds, so no snapshot round-trip can restore
anything: `to_json` hands `json.dumps` the `QiskitConfig` object and the
resolved target dict — whose `gate` object or `DensityMatrix` (always
present after resolution, and preserved by every step) is not
JSON-serializable — so `json.dumps` raises `TypeError` for every constructed
environment. -/
theorem C9_code_bug_eval :
    (∀ (ext : Extern) (env : Env),
        env.target.gate.isSome ∨ env.target.dm.isSome →
        to_json ext env = .error .jsonTypeError) ∧
    (∀ (ext : Extern) (t : TDict) (al : String) (cfg : QiskitConfig) (spc ns : Nat)
        (c : ℚ) (env : Env),
        QuantumEnvironment_init ext t al cfg spc ns c = .ok env →
        env.target.gate.isSome ∨ env.target.dm.isSome) ∧
    (∀ (ext : Extern) (env : Env) (a : List (List ℚ)) (db : Bool) (ri : Nat)
        (ks : List Nat) (rOk : Bool) (ro : Except Unit (List ℚ)),
        (perform_action ext env a db ri ks rOk ro).2.target = env.target) := by
  refine ⟨to_json_fails, ?_, pa_target⟩
  intro ext t al cfg spc ns c env h
  obtain ⟨qr, n, lay, hd⟩ := init_target ext t al cfg spc ns c env h
  exact dt_kind ext t env.target env.target_type qr n lay hd

/-- Witness for C9: the concrete state-target environment (built with
`c_factor = 0`). -/
theorem C9_witness :
    to_json ext0 envS0 = .error .jsonTypeError ∧
    (envS0.target.gate.isSome ∨ envS0.target.dm.isSome) ∧
    (perform_action ext0 envS0 [[0]] false 0 [0] true (.ok [0])).2.target = envS0.target :=
  ⟨C9_code_bug_eval.1 ext0 envS0 (by decide),
   C9_code_bug_eval.2.1 ext0 stateT "circuit" ⟨0⟩ 10 1 0 envS0 (by decide),
   C9_code_bug_eval.2.2 ext0 envS0 [[0]] false 0 [0] true (.ok [0])⟩

/-- C10: `_define_target` mutates the caller's raw target mapping in place —
on success the environment's internal target *is* the caller's record with
exactly the derived entries written (`target_type` tag, `dm`, `Chi`, and for
gate targets `input_states` with per-input `dm` and `target_state`), every
other entry preserved; and `__init__` stores precisely that record. -/
theorem C10_thm :
    (∀ (ext : Extern) (t t' : TDict) (tt : String) (qr n : Nat) (lay : List Nat),
        _define_target ext t = .ok (t', tt, qr, n, lay) →
        t'.extra = t.extra ∧ t'.register = t.register ∧ t'.gate = t.gate ∧
        t'.circuit = t.circuit ∧ t'.target_type = some tt ∧
        (tt = "state" ∨ tt = "gate") ∧
        (tt = "state" → t'.dm.isSome ∧ t'.Chi.isSome) ∧
        (tt = "gate" → ∃ states, t'.input_states = some states ∧
          ∀ is0 ∈ states, is0.dm.isSome ∧
            ∃ st, is0.target_state = some st ∧ st.Chi.isSome)) ∧
    (∀ (ext : Extern) (t : TDict) (al : String) (cfg : QiskitConfig) (spc ns : Nat)
        (c : ℚ) (env : Env),
        QuantumEnvironment_init ext t al cfg spc ns c = .ok env →
        ∃ qr n lay, _define_target ext t = .ok (env.target, env.target_type, qr, n, lay)) :=
  ⟨dt_frame, init_target⟩

/-- `stateT` as `_define_target` returns it: `target_type` and `Chi` written
in place. -/
def stateTR : TDict :=
  { stateT with target_type := some "state", Chi := some [0, 0, 0, 0] }

/-- Witness for C10: the concrete state target without register. -/
theorem C10_witness :
    (stateTR.extra = stateT.extra ∧
      stateTR.register = stateT.register ∧
      stateTR.gate = stateT.gate ∧
      stateTR.circuit = stateT.circuit ∧
      stateTR.target_type = some "state" ∧
      (("state" : String) = "state" ∨ ("state" : String) = "gate") ∧
      (("state" : String) = "state" → stateTR.dm.isSome ∧ stateTR.Chi.isSome) ∧
      (("state" : String) = "gate" →
        ∃ states, stateTR.input_states = some states ∧
          ∀ is0 ∈ states, is0.dm.isSome ∧
            ∃ st, is0.target_state = some st ∧ st.Chi.isSome)) ∧
    (∃ qr n lay, _define_target ext0 stateT = .ok (envS0.target, envS0.target_type, qr, n, lay)) :=
  ⟨C10_thm.1 ext0 stateT stateTR "state" 1 1 [0] (by decide),
   C10_thm.2 ext0 stateT "circuit" ⟨0⟩ 10 1 0 envS0 (by decide)⟩
